import Mathlib

/-!
Shallow embedding of the MetroMorph frontend (React/TypeScript) for
verification of its specification.

Sources embedded:
- `src/Metamorph/Metamorph/frontend/src/components/steps/StepRunAnalysis.tsx`
  (`runAnalysis`, `generateMockGreenZones`)
- `src/Metamorph/frontend/src/components/pages/NewAnalysis.tsx`
  (wizard state, `canProceed`, `handleNext`, `handleBack`, `handleSave`,
  `useState` initializers)
- `src/Metamorph/frontend/src/components/MapInterface.tsx`
  (`handleStartDrawing`, map click accumulation, `handleFinishDrawing`,
  `handleCancelDrawing`)
- `src/unnamed/part_001` (StepCollaborate: `handleAddComment`,
  `handleApprove`, `handleShare`)
- `src/unnamed/part_004` (App: data interfaces, `handleSaveProject`)

JavaScript numbers are modelled as rationals (`ℚ`); `Math.floor` is
`Int.floor`; `Math.random()` is modelled as an explicit stream
`rnd : ℕ → ℚ` of draws, consumed in the order the source consumes them;
`Date`-derived values are passed in as an explicit `now : ℚ`.
-/

/-- A `google.maps.LatLngLiteral`: a geographic point. -/
structure LatLng where
  lat : ℚ
  lng : ℚ
deriving DecidableEq, Repr

/-- The `TerrainData` interface of `src/unnamed/part_004`. -/
structure TerrainData where
  elevation : ℚ
  slope : ℚ
  soilType : String
  waterPresence : Bool
deriving DecidableEq, Repr

/-- The four green-zone kinds of the `GreenZone` interface. -/
inductive ZoneType where
  | park
  | garden
  | forest
  | wetland
deriving DecidableEq, Repr

/-- The `GreenZone` interface of `src/unnamed/part_004`. -/
structure GreenZone where
  id : String
  name : String
  area : ℤ
  type : ZoneType
  coordinates : List LatLng
deriving DecidableEq, Repr

/-- The `status` union type of the `Scenario` interface. -/
inductive Status where
  | draft
  | completed
  | shared
deriving DecidableEq, Repr

/-- The `Comment` interface of `src/unnamed/part_004`. -/
structure Comment where
  id : String
  author : String
  text : String
  timestamp : ℚ
deriving DecidableEq, Repr

/-- The `Scenario` interface of `src/unnamed/part_004`.  The field the
specification calls `coveragePercent` is named `coverage` in the source. -/
structure Scenario where
  id : String
  name : String
  timestamp : ℚ
  region : List LatLng
  greenZones : List GreenZone
  coverage : ℚ
  sustainabilityScore : ℤ
  accessibilityScore : ℤ
  populationServed : ℤ
  status : Status
  comments : List Comment
deriving DecidableEq, Repr

/-- The `Project` interface of `src/unnamed/part_004`. -/
structure Project where
  id : String
  name : String
  region : String
  status : Status
  date : ℚ
  scenario : Scenario
deriving DecidableEq, Repr

/-! ## Scenario generator (StepRunAnalysis.tsx) -/

/-- `zoneTypes` of `generateMockGreenZones`. -/
def zoneTypes : List ZoneType :=
  [ZoneType.park, ZoneType.garden, ZoneType.forest, ZoneType.wetland]

/-- `zoneNames` of `generateMockGreenZones`. -/
def zoneNames : ZoneType → List String
  | ZoneType.park => ["Central Park", "Community Park", "Riverside Park", "Heritage Park"]
  | ZoneType.garden => ["Botanical Garden", "Rose Garden", "Herb Garden", "Sculpture Garden"]
  | ZoneType.forest => ["Urban Forest", "Nature Reserve", "Wildlife Corridor", "Green Belt"]
  | ZoneType.wetland => ["Wetland Preserve", "Marsh Area", "Pond Ecosystem", "Water Garden"]

/-- `sizeMultiplier` of `generateMockGreenZones`. -/
def sizeMultiplier : ZoneType → ℚ
  | ZoneType.park => 3 / 1000
  | ZoneType.garden => 2 / 1000
  | ZoneType.forest => 4 / 1000
  | ZoneType.wetland => 25 / 10000

/-- `const numZones = Math.max(3, Math.floor((targetCoverage / 8) + 1))`. -/
def numZones (targetCoverage : ℚ) : ℕ :=
  max 3 (⌊targetCoverage / 8 + 1⌋.toNat)

/-- Minimum latitude of a region, `Math.min(...region.map(p => p.lat))`
(the empty region, which the caller never passes, is given value 0). -/
def regionMinLat : List LatLng → ℚ
  | [] => 0
  | p :: ps => ps.foldl (fun a q => min a q.lat) p.lat

/-- Maximum latitude of a region, `Math.max(...region.map(p => p.lat))`. -/
def regionMaxLat : List LatLng → ℚ
  | [] => 0
  | p :: ps => ps.foldl (fun a q => max a q.lat) p.lat

/-- Minimum longitude of a region, `Math.min(...region.map(p => p.lng))`. -/
def regionMinLng : List LatLng → ℚ
  | [] => 0
  | p :: ps => ps.foldl (fun a q => min a q.lng) p.lng

/-- Maximum longitude of a region, `Math.max(...region.map(p => p.lng))`. -/
def regionMaxLng : List LatLng → ℚ
  | [] => 0
  | p :: ps => ps.foldl (fun a q => max a q.lng) p.lng

/-- JavaScript `x % 1` for a non-negative number: the fractional part. -/
def fract (q : ℚ) : ℚ := q - ⌊q⌋

/-- Loop body of `generateMockGreenZones` for index `i` out of `n` zones.
The source draws `Math.random()` twice per zone, first for the zone name
and then for the area, so zone `i` consumes draws `2*i` and `2*i+1`. -/
def mkZone (region : List LatLng) (n : ℕ) (rnd : ℕ → ℚ) (i : ℕ) : GreenZone :=
  let zoneType := zoneTypes.getD (i % zoneTypes.length) ZoneType.park
  let names := zoneNames zoneType
  let zoneName := names.getD (⌊rnd (2 * i) * (names.length : ℚ)⌋.toNat) ""
  let minLat := regionMinLat region
  let maxLat := regionMaxLat region
  let minLng := regionMinLng region
  let maxLng := regionMaxLng region
  let latRange := maxLat - minLat
  let lngRange := maxLng - minLng
  let centerLat := minLat + latRange * (2 / 10 + ((i : ℚ) * (6 / 10)) / (n : ℚ))
  let centerLng := minLng + lngRange * (2 / 10 + fract ((i : ℚ) * (7 / 10)))
  let size := sizeMultiplier zoneType
  { id := "zone-" ++ toString i
    name := zoneName
    area := ⌊rnd (2 * i + 1) * 30000⌋ + 15000
    type := zoneType
    coordinates :=
      [⟨centerLat - size, centerLng - size⟩,
       ⟨centerLat + size, centerLng - size⟩,
       ⟨centerLat + size, centerLng + size⟩,
       ⟨centerLat - size, centerLng + size⟩] }

/-- `generateMockGreenZones` of `StepRunAnalysis.tsx`: pushes `numZones`
zones, one per loop index. -/
def generateMockGreenZones (region : List LatLng) (targetCoverage : ℚ)
    (rnd : ℕ → ℚ) : List GreenZone :=
  (List.range (numZones targetCoverage)).map (mkZone region (numZones targetCoverage) rnd)

/-- Construction of the `scenario` object in `runAnalysis` once a region is
present.  `priorityType` is the component's `useState('balanced')` value at
click time; the zone generation consumes draws `0 .. 2*numZones - 1`, after
which the three scores consume the next three draws in source order. -/
def runAnalysisCore (region : List LatLng) (greenSpaceTarget : ℚ)
    (priorityType : String) (rnd : ℕ → ℚ) (now : ℚ) : Scenario :=
  let greenZones := generateMockGreenZones region greenSpaceTarget rnd
  let k := 2 * numZones greenSpaceTarget
  { id := "scenario-" ++ toString now
    name := "AI Generated Scenario " ++ toString now
    timestamp := now
    region := region
    greenZones := greenZones
    coverage := greenSpaceTarget
    sustainabilityScore := ⌊rnd k * 30⌋ + 70
    accessibilityScore := ⌊rnd (k + 1) * 25⌋ + 75
    populationServed := ⌊rnd (k + 2) * 50000⌋ + 100000
    status := Status.draft
    comments := [] }

/-- `runAnalysis` of `StepRunAnalysis.tsx`: `if (!selectedRegion) return;`
then builds the scenario and emits it via `onScenarioGenerated`. -/
def runAnalysis (selectedRegion : Option (List LatLng)) (greenSpaceTarget : ℚ)
    (priorityType : String) (rnd : ℕ → ℚ) (now : ℚ) : Option Scenario :=
  selectedRegion.map (fun region => runAnalysisCore region greenSpaceTarget priorityType rnd now)

/-! ## Analysis wizard (NewAnalysis.tsx) -/

/-- The component state of `NewAnalysis`: the five `useState` fields. -/
structure WizardState where
  currentStep : ℕ
  selectedRegion : Option (List LatLng)
  regionName : String
  terrainData : Option TerrainData
  scenario : Option Scenario
deriving DecidableEq, Repr

/-- The `useState` initializers of `NewAnalysis` (lines 30-36): step 5 and
fields copied from the project when one is selected, step 1 and empty fields
otherwise.  `terrainData` starts `null` in both cases. -/
def initWizard (selectedProject : Option Project) : WizardState :=
  { currentStep := if selectedProject.isSome then 5 else 1
    selectedRegion :=
      match selectedProject with
      | some p => some p.scenario.region
      | none => none
    regionName :=
      match selectedProject with
      | some p => p.region
      | none => ""
    terrainData := none
    scenario :=
      match selectedProject with
      | some p => some p.scenario
      | none => none }

/-- `canProceed` of `NewAnalysis.tsx`. -/
def canProceed (s : WizardState) : Bool :=
  if s.currentStep = 1 then s.selectedRegion.isSome && decide (0 < s.regionName.length)
  else if s.currentStep = 2 then s.terrainData.isSome
  else if s.currentStep = 3 then s.scenario.isSome
  else if s.currentStep = 4 then s.scenario.isSome
  else true

/-- `handleNext` of `NewAnalysis.tsx`. -/
def handleNext (s : WizardState) : WizardState :=
  if canProceed s && s.currentStep < 5 then
    { s with currentStep := s.currentStep + 1 }
  else
    s

/-- `handleBack` of `NewAnalysis.tsx`. -/
def handleBack (s : WizardState) : WizardState :=
  if 1 < s.currentStep then
    { s with currentStep := s.currentStep - 1 }
  else
    s

/-- Outcome of the Project Store `create` call (`apiClient.createProject`),
passed in explicitly: `Except.ok` when the request resolves with data,
`Except.error` when it throws. -/
abbrev StoreOutcome := Except String Unit

/-- Observable effects of pressing Save: what `handleSave` in
`NewAnalysis.tsx` together with `handleSaveProject` in `src/unnamed/part_004`
performs.  `storeCreate` is the `(scenario, regionName)` payload handed to
the store; `sessionEnded` records the `onCancel()` call that leaves the
wizard (discarding its in-memory state); `errorLogged` records the
`console.error` in the catch branch; `projectsReloaded` records the
`loadProjects()` call in the success branch. -/
structure SaveEffects where
  storeCreate : Option (Scenario × String)
  sessionEnded : Bool
  errorLogged : Bool
  projectsReloaded : Bool
deriving DecidableEq, Repr

/-- `handleSave` of `NewAnalysis.tsx` combined with `handleSaveProject` of
`src/unnamed/part_004`: if a scenario is present, `onSaveProject(scenario,
regionName)` is initiated and then `onCancel()` is called unconditionally
(the async create settles afterwards); on a thrown create, the error is
written to the console; on success the project list is reloaded. -/
def handleSave (s : WizardState) (outcome : StoreOutcome) : SaveEffects :=
  match s.scenario with
  | none =>
      { storeCreate := none
        sessionEnded := false
        errorLogged := false
        projectsReloaded := false }
  | some sc =>
      { storeCreate := some (sc, s.regionName)
        sessionEnded := true
        errorLogged := match outcome with | Except.error _ => true | Except.ok _ => false
        projectsReloaded := match outcome with | Except.ok _ => true | Except.error _ => false }

/-! ## Region drawing (MapInterface.tsx) -/

/-- The drawing-related component state of `MapInterface`: whether the map
object loaded, whether drawing mode is active, and the accumulated points. -/
structure DrawState where
  hasMap : Bool
  isDrawing : Bool
  drawingPoints : List LatLng
deriving DecidableEq, Repr

/-- Result of a drawing action: the new state plus the point sequence
emitted through `onRegionSelect`, when any. -/
structure DrawResult where
  state : DrawState
  emitted : Option (List LatLng)
deriving DecidableEq, Repr

/-- `handleStartDrawing` of `MapInterface.tsx`: `if (!map) return;` then
enters drawing mode with an empty point list. -/
def handleStartDrawing (s : DrawState) : DrawState :=
  if s.hasMap then { s with isDrawing := true, drawingPoints := [] } else s

/-- The map click listener installed by `handleStartDrawing`:
`setDrawingPoints(prev => [...prev, newPoint])`. -/
def addPoint (s : DrawState) (p : LatLng) : DrawState :=
  { s with drawingPoints := s.drawingPoints ++ [p] }

/-- `handleFinishDrawing` of `MapInterface.tsx`:
`if (!map || drawingPoints.length < 3) return;` (state unchanged, nothing
emitted); otherwise emits the accumulated points via `onRegionSelect` and
exits drawing mode, clearing the point list. -/
def handleFinishDrawing (s : DrawState) : DrawResult :=
  if !s.hasMap || s.drawingPoints.length < 3 then
    { state := s, emitted := none }
  else
    { state := { s with isDrawing := false, drawingPoints := [] }
      emitted := some s.drawingPoints }

/-- `handleCancelDrawing` of `MapInterface.tsx`: exits drawing mode and
discards the accumulated points, emitting nothing. -/
def handleCancelDrawing (s : DrawState) : DrawResult :=
  if !s.hasMap then
    { state := s, emitted := none }
  else
    { state := { s with isDrawing := false, drawingPoints := [] }
      emitted := none }

/-! ## Collaborate step (src/unnamed/part_001) -/

/-- `handleAddComment` of StepCollaborate: `if (!newComment.trim()) return;`
then appends a comment authored by the fixed user. -/
def handleAddComment (sc : Scenario) (newComment : String) (now : ℚ) : Scenario :=
  if newComment.trim = "" then
    sc
  else
    { sc with
        comments := sc.comments ++
          [{ id := "comment-" ++ toString now
             author := "Urban Planner"
             text := newComment
             timestamp := now }] }

/-- `handleApprove` of StepCollaborate: sets the status to `completed`
(the button that invokes it is disabled while the status is already
`completed`). -/
def handleApprove (sc : Scenario) : Scenario :=
  { sc with status := Status.completed }

/-- `handleShare` of StepCollaborate: sets the status to `shared` (defined
in the source, though no rendered control invokes it). -/
def handleShare (sc : Scenario) : Scenario :=
  { sc with status := Status.shared }

/-- The scenario-level actions the Collaborate step defines. -/
inductive CollabAction where
  | approve
  | share
  | addComment (text : String) (now : ℚ)

/-- Dispatch of a Collaborate action on a scenario. -/
def applyCollab (a : CollabAction) (sc : Scenario) : Scenario :=
  match a with
  | CollabAction.approve => handleApprove sc
  | CollabAction.share => handleShare sc
  | CollabAction.addComment text now => handleAddComment sc text now

/-- Rank of a status along the forward order the specification states:
`draft` strictly before `completed` and `shared`. -/
def statusRank : Status → ℕ
  | Status.draft => 0
  | Status.completed => 1
  | Status.shared => 1

/-! ## Concrete example values used by witnesses and counterexamples -/

/-- A four-point rectangular region. -/
def regionEx : List LatLng := [⟨0, 0⟩, ⟨0, 1⟩, ⟨1, 1⟩, ⟨1, 0⟩]

/-- A concrete scenario, as a saved project would hold. -/
def scenarioEx : Scenario :=
  { id := "scenario-1"
    name := "AI Generated Scenario 1"
    timestamp := 0
    region := regionEx
    greenZones := []
    coverage := 25
    sustainabilityScore := 80
    accessibilityScore := 80
    populationServed := 120000
    status := Status.completed
    comments := [] }

/-- A concrete persisted project wrapping `scenarioEx`. -/
def projectEx : Project :=
  { id := "project-1"
    name := "AI Generated Scenario 1"
    region := "Bayreuth"
    status := Status.completed
    date := 0
    scenario := scenarioEx }

/-- A wizard state at the Save step holding `scenarioEx`. -/
def wizardSaveEx : WizardState :=
  { currentStep := 5
    selectedRegion := some regionEx
    regionName := "Bayreuth"
    terrainData := none
    scenario := some scenarioEx }

/-! ## Helper lemmas -/

/-- Zone count formula on a natural-number target: the source's
`Math.max(3, Math.floor(t / 8 + 1))` equals `max 3 (t / 8 + 1)` in natural
arithmetic. -/
theorem numZones_natCast (t : ℕ) : numZones (t : ℚ) = max 3 (t / 8 + 1) := by
  unfold numZones
  have h8 : ((8 : ℕ) : ℚ) = (8 : ℚ) := by norm_num
  have h : ⌊(t : ℚ) / 8 + 1⌋ = (t : ℤ) / 8 + 1 := by
    rw [Int.floor_add_one, ← h8, Rat.floor_natCast_div_natCast]
    norm_num
  rw [h]
  have h2 : ((t : ℤ) / 8 + 1).toNat = t / 8 + 1 := by omega
  rw [h2]

/-- The default slider value 25 yields four zones. -/
theorem numZones_25 : numZones 25 = 4 := by
  have h := numZones_natCast 25
  norm_num at h
  exact h

/-- A draw `r` with `0 ≤ r < 1` scaled by a positive constant and floored
lands in `[0, c)`. -/
theorem floor_rand_bounds (r : ℚ) (c : ℕ) (hc : 0 < c) (h0 : 0 ≤ r) (h1 : r < 1) :
    0 ≤ ⌊r * (c : ℚ)⌋ ∧ ⌊r * (c : ℚ)⌋ < (c : ℤ) := by
  have hc' : (0 : ℚ) < (c : ℚ) := by exact_mod_cast hc
  constructor
  · exact Int.le_floor.mpr (by positivity)
  · apply Int.floor_lt.mpr
    push_cast
    exact (mul_lt_iff_lt_one_left hc').mpr h1

/-! ## Claim theorems -/

/-- C2: for every greenSpaceTarget in [10,50], the scenario generator
produces exactly `max 3 (⌊target/8⌋ + 1)` green zones, and in particular
target 25 yields 4 zones. -/
theorem zone_count_formula (t : ℕ) (h1 : 10 ≤ t) (h2 : t ≤ 50)
    (region : List LatLng) (rnd : ℕ → ℚ) :
    (generateMockGreenZones region (t : ℚ) rnd).length = max 3 (t / 8 + 1) ∧
    (generateMockGreenZones region 25 rnd).length = 4 := by
  constructor
  · unfold generateMockGreenZones
    rw [List.length_map, List.length_range, numZones_natCast]
  · unfold generateMockGreenZones
    rw [List.length_map, List.length_range, numZones_25]

/-- C2 witness: the formula instantiated at target 25, the empty draw
stream and a concrete region. -/
theorem zone_count_formula_witness :
    (generateMockGreenZones regionEx ((25 : ℕ) : ℚ) (fun _ => 0)).length = max 3 (25 / 8 + 1) ∧
    (generateMockGreenZones regionEx 25 (fun _ => 0)).length = 4 :=
  zone_count_formula 25 (by norm_num) (by norm_num) regionEx (fun _ => 0)

/-- C6: a generated Scenario's coverage field (the specification's
`coveragePercent`) is the configured green-space target verbatim, for every
region, priority, draw stream and clock value, hence never recomputed from
the generated zones' geometry. -/
theorem coverage_echoes_target (region : List LatLng) (target : ℚ)
    (priorityType : String) (rnd : ℕ → ℚ) (now : ℚ) :
    (runAnalysisCore region target priorityType rnd now).coverage = target := rfl

/-- C8: the generator's output does not depend on `priorityType`: two runs
on the same region, target, draw stream and clock with any two priority
values produce identical results. -/
theorem priority_type_no_influence (selectedRegion : Option (List LatLng))
    (target : ℚ) (rnd : ℕ → ℚ) (now : ℚ) (p1 p2 : String) :
    runAnalysis selectedRegion target p1 rnd now =
      runAnalysis selectedRegion target p2 rnd now := rfl

/-- C9: with every random draw in [0,1), a generated Scenario's
sustainabilityScore lies in [70,99], its accessibilityScore in [75,99] and
its populationServed in [100000,150000). -/
theorem generated_scores_in_range (region : List LatLng) (target : ℚ)
    (priorityType : String) (rnd : ℕ → ℚ) (now : ℚ)
    (hr : ∀ i, 0 ≤ rnd i ∧ rnd i < 1) :
    70 ≤ (runAnalysisCore region target priorityType rnd now).sustainabilityScore ∧
    (runAnalysisCore region target priorityType rnd now).sustainabilityScore ≤ 99 ∧
    75 ≤ (runAnalysisCore region target priorityType rnd now).accessibilityScore ∧
    (runAnalysisCore region target priorityType rnd now).accessibilityScore ≤ 99 ∧
    100000 ≤ (runAnalysisCore region target priorityType rnd now).populationServed ∧
    (runAnalysisCore region target priorityType rnd now).populationServed < 150000 := by
  have hs := floor_rand_bounds (rnd (2 * numZones target)) 30 (by norm_num)
    (hr (2 * numZones target)).1 (hr (2 * numZones target)).2
  have ha := floor_rand_bounds (rnd (2 * numZones target + 1)) 25 (by norm_num)
    (hr (2 * numZones target + 1)).1 (hr (2 * numZones target + 1)).2
  have hp := floor_rand_bounds (rnd (2 * numZones target + 2)) 50000 (by norm_num)
    (hr (2 * numZones target + 2)).1 (hr (2 * numZones target + 2)).2
  push_cast at hs ha hp
  refine ⟨?_, ?_, ?_, ?_, ?_, ?_⟩
  · show 70 ≤ ⌊rnd (2 * numZones target) * 30⌋ + 70
    omega
  · show ⌊rnd (2 * numZones target) * 30⌋ + 70 ≤ 99
    omega
  · show 75 ≤ ⌊rnd (2 * numZones target + 1) * 25⌋ + 75
    omega
  · show ⌊rnd (2 * numZones target + 1) * 25⌋ + 75 ≤ 99
    omega
  · show 100000 ≤ ⌊rnd (2 * numZones target + 2) * 50000⌋ + 100000
    omega
  · show ⌊rnd (2 * numZones target + 2) * 50000⌋ + 100000 < 150000
    omega

/-- C9 witness: the bounds instantiated at a constant zero draw stream. -/
theorem generated_scores_in_range_witness :
    70 ≤ (runAnalysisCore regionEx 25 "balanced" (fun _ => 0) 0).sustainabilityScore ∧
    (runAnalysisCore regionEx 25 "balanced" (fun _ => 0) 0).sustainabilityScore ≤ 99 ∧
    75 ≤ (runAnalysisCore regionEx 25 "balanced" (fun _ => 0) 0).accessibilityScore ∧
    (runAnalysisCore regionEx 25 "balanced" (fun _ => 0) 0).accessibilityScore ≤ 99 ∧
    100000 ≤ (runAnalysisCore regionEx 25 "balanced" (fun _ => 0) 0).populationServed ∧
    (runAnalysisCore regionEx 25 "balanced" (fun _ => 0) 0).populationServed < 150000 :=
  generated_scores_in_range regionEx 25 "balanced" (fun _ => 0) 0
    (fun _ => ⟨le_refl 0, zero_lt_one⟩)

/-- C1: `next()` advances only when the current step's completion predicate
holds — from step 1 exactly when a region is set and the name is non-empty,
from step 2 exactly when terrain data is present, from steps 3 and 4
exactly when a scenario is present — and whenever it does not advance the
state (in particular the current step) is unchanged. -/
theorem wizard_next_guard (s : WizardState) :
    ((handleNext s).currentStep = s.currentStep ∨
      (handleNext s).currentStep = s.currentStep + 1) ∧
    (s.currentStep = 1 →
      ((handleNext s).currentStep = s.currentStep + 1 ↔
        s.selectedRegion.isSome = true ∧ 0 < s.regionName.length)) ∧
    (s.currentStep = 2 →
      ((handleNext s).currentStep = s.currentStep + 1 ↔ s.terrainData.isSome = true)) ∧
    (s.currentStep = 3 →
      ((handleNext s).currentStep = s.currentStep + 1 ↔ s.scenario.isSome = true)) ∧
    (s.currentStep = 4 →
      ((handleNext s).currentStep = s.currentStep + 1 ↔ s.scenario.isSome = true)) ∧
    ((handleNext s).currentStep = s.currentStep → handleNext s = s) := by
  obtain ⟨step, reg, name, terr, scen⟩ := s
  refine ⟨?_, ?_, ?_, ?_, ?_, ?_⟩
  · unfold handleNext
    split_ifs <;> simp
  · intro h
    subst h
    simp [handleNext, canProceed]
    split_ifs with hb <;> simp_all
  · intro h
    subst h
    simp [handleNext, canProceed]
    split_ifs with hb <;> simp_all
  · intro h
    subst h
    simp [handleNext, canProceed]
    split_ifs with hb <;> simp_all
  · intro h
    subst h
    simp [handleNext, canProceed]
    split_ifs with hb <;> simp_all
  · unfold handleNext
    split_ifs <;> simp_all

/-- C1 witness: at step 1 with a confirmed region and a non-empty name,
`next()` advances to step 2. -/
theorem wizard_next_guard_witness :
    (handleNext
      { currentStep := 1
        selectedRegion := some regionEx
        regionName := "Bayreuth"
        terrainData := none
        scenario := none }).currentStep = 1 + 1 :=
  ((wizard_next_guard
      { currentStep := 1
        selectedRegion := some regionEx
        regionName := "Bayreuth"
        terrainData := none
        scenario := none }).2.1 rfl).mpr (by constructor <;> decide)

/-- C3 counterexample: loading a persisted project starts the wizard at
step 5, but the TerrainRecord part of the prior state is not pre-populated:
`terrainData` is `none`.  The claim's "with all prior state pre-populated"
fails for the ImportData step's record. -/
theorem project_load_terrain_absent :
    (initWizard (some projectEx)).currentStep = 5 ∧
    (initWizard (some projectEx)).terrainData = none := ⟨rfl, rfl⟩

/-- C3 amended: loading a persisted project places the wizard directly at
step 5 with the region, name and scenario pre-populated from the project,
while the TerrainRecord starts absent (`none`); no completion predicate is
consulted — indeed the ImportData predicate is false at the resulting state,
yet entry is at step 5. -/
theorem project_load_entry (p : Project) :
    initWizard (some p) =
      { currentStep := 5
        selectedRegion := some p.scenario.region
        regionName := p.region
        terrainData := none
        scenario := some p.scenario } ∧
    canProceed { initWizard (some p) with currentStep := 2 } = false := by
  refine ⟨rfl, ?_⟩
  simp [canProceed, initWizard]

/-- C4 counterexample: with a scenario present and the Project Store create
failing, the wizard session still ends (`onCancel()` is invoked
unconditionally right after initiating the save), so the in-memory scenario
is not retained for a retry, contrary to the claim's failure branch. -/
theorem save_failure_still_ends_session :
    (handleSave wizardSaveEx (Except.error "Failed to save project")).sessionEnded = true ∧
    (handleSave wizardSaveEx (Except.error "Failed to save project")).errorLogged = true :=
  ⟨rfl, rfl⟩

/-- C4 amended: when save is invoked with a scenario present, the wizard
hands the scenario and the region name to the Project Store create and the
session ends unconditionally; on success the project list is reloaded, on
failure the error is logged to the console — in either case the session has
ended and the scenario is not retained. -/
theorem save_hands_off_and_ends (s : WizardState) (sc : Scenario) (e : String)
    (h : s.scenario = some sc) :
    handleSave s (Except.ok ()) =
      { storeCreate := some (sc, s.regionName)
        sessionEnded := true
        errorLogged := false
        projectsReloaded := true } ∧
    handleSave s (Except.error e) =
      { storeCreate := some (sc, s.regionName)
        sessionEnded := true
        errorLogged := true
        projectsReloaded := false } := by
  unfold handleSave
  rw [h]
  exact ⟨rfl, rfl⟩

/-- C4 witness: the amended save behavior at a concrete wizard state. -/
theorem save_hands_off_and_ends_witness :
    handleSave wizardSaveEx (Except.ok ()) =
      { storeCreate := some (scenarioEx, "Bayreuth")
        sessionEnded := true
        errorLogged := false
        projectsReloaded := true } ∧
    handleSave wizardSaveEx (Except.error "network") =
      { storeCreate := some (scenarioEx, "Bayreuth")
        sessionEnded := true
        errorLogged := true
        projectsReloaded := false } :=
  save_hands_off_and_ends wizardSaveEx scenarioEx "network" rfl

/-- Folding the click listener over a point list appends the points in
order to the accumulated sequence. -/
theorem foldl_addPoint (l : List LatLng) (s0 : DrawState) :
    l.foldl addPoint s0 = { s0 with drawingPoints := s0.drawingPoints ++ l } := by
  induction l generalizing s0 with
  | nil => simp
  | cons p ps ih =>
      rw [List.foldl_cons, ih]
      simp [addPoint]

/-- A drawing state at the finish click, with the map loaded and four
accumulated points. -/
def drawEx : DrawState :=
  { hasMap := true, isDrawing := true, drawingPoints := regionEx }

/-- C5: with the map present, finishing with fewer than 3 accumulated
points is silently ignored (state unchanged, nothing emitted); with at
least 3 points it emits exactly the accumulated points and exits drawing
mode; and a finish after starting to draw and clicking a point sequence of
length at least 3 emits that sequence in insertion order. -/
theorem finish_drawing_contract (s : DrawState) (h : s.hasMap = true) :
    (s.drawingPoints.length < 3 →
      handleFinishDrawing s = { state := s, emitted := none }) ∧
    (3 ≤ s.drawingPoints.length →
      handleFinishDrawing s =
        { state := { s with isDrawing := false, drawingPoints := [] }
          emitted := some s.drawingPoints }) ∧
    (∀ l : List LatLng, 3 ≤ l.length →
      handleFinishDrawing (l.foldl addPoint (handleStartDrawing s)) =
        { state := { hasMap := true, isDrawing := false, drawingPoints := [] }
          emitted := some l }) := by
  refine ⟨?_, ?_, ?_⟩
  · intro hlt
    simp [handleFinishDrawing, h, hlt]
  · intro hge
    simp [handleFinishDrawing, h, Nat.not_lt.mpr hge]
  · intro l hl
    rw [foldl_addPoint]
    simp [handleStartDrawing, handleFinishDrawing, h, Nat.not_lt.mpr hl]

/-- C5 witness: finishing `drawEx` (four points) emits the four points in
order and exits drawing mode. -/
theorem finish_drawing_contract_witness :
    handleFinishDrawing drawEx =
      { state := { hasMap := true, isDrawing := false, drawingPoints := [] }
        emitted := some regionEx } :=
  (finish_drawing_contract drawEx rfl).2.1 (by decide)

/-- C7: no Collaborate action moves a scenario's status backward: the rank
draft 0, completed shared 1 never decreases, and in particular an action
whose result has status draft started from status draft. -/
theorem status_forward_only (a : CollabAction) (sc : Scenario) :
    statusRank sc.status ≤ statusRank (applyCollab a sc).status ∧
    ((applyCollab a sc).status = Status.draft → sc.status = Status.draft) := by
  cases a with
  | approve =>
      cases hs : sc.status <;>
        simp [applyCollab, handleApprove, statusRank, hs]
  | share =>
      cases hs : sc.status <;>
        simp [applyCollab, handleShare, statusRank, hs]
  | addComment text now =>
      by_cases h : text.trim = "" <;>
        simp [applyCollab, handleAddComment, h]

/-- C10: adding a blank comment leaves the scenario unchanged; adding a
non-blank comment appends exactly one comment at the end and changes no
other field.  Blank means the JavaScript guard `!newComment.trim()`
fires, i.e. the trimmed text is empty. -/
theorem add_comment_frame (sc : Scenario) (text : String) (now : ℚ) :
    (text.trim = "" → handleAddComment sc text now = sc) ∧
    (text.trim ≠ "" →
      (handleAddComment sc text now).comments =
        sc.comments ++
          [{ id := "comment-" ++ toString now
             author := "Urban Planner"
             text := text
             timestamp := now }] ∧
      (handleAddComment sc text now).id = sc.id ∧
      (handleAddComment sc text now).name = sc.name ∧
      (handleAddComment sc text now).timestamp = sc.timestamp ∧
      (handleAddComment sc text now).region = sc.region ∧
      (handleAddComment sc text now).greenZones = sc.greenZones ∧
      (handleAddComment sc text now).coverage = sc.coverage ∧
      (handleAddComment sc text now).sustainabilityScore = sc.sustainabilityScore ∧
      (handleAddComment sc text now).accessibilityScore = sc.accessibilityScore ∧
      (handleAddComment sc text now).populationServed = sc.populationServed ∧
      (handleAddComment sc text now).status = sc.status) := by
  constructor
  · intro h
    simp [handleAddComment, h]
  · intro h
    simp [handleAddComment, h]
